import Mathlib

/-!
Verification of the session bridge and download responder of
`textual_serve_asgi/server.py`.

The embedding covers:

* `Server.handle_websocket` — modelled as a function from an environment
  describing the outcome of each awaited collaborator call (WebSocket
  accept, `AppService` construction, `AppService.start`, the relay loop
  `_process_messages`) to the result together with the ordered
  trace of calls it performed.  Each collaborator call can complete
  normally, raise `asyncio.CancelledError`, or raise an ordinary
  `Exception`; the `close`, `stop` and logging calls performed inside the
  `except`/`finally` blocks are modelled as completing normally.
* `Server.handle_download` — modelled as a pure function from a download
  manager (metadata lookup plus chunk stream, both external collaborators
  the handler consumes) and a key to the response value it builds.
* `Server._get_ws_url` — modelled over the string data, with the Python
  `str.split(sep, 1)` unpacking into exactly two parts modelled as an
  `Option` (a string without the separator makes the Python unpacking
  raise `ValueError`).

Python strings are modelled as Lean `String`; Python `f"... {x} ..."`
formatting as string concatenation; Python `repr` of a string (used in the
404 body via `{key!r}`) is modelled by `pyRepr` below.
-/

namespace TextualServeAsgi

/-- Decimal digit accumulator: consumes the remaining characters, returning
`none` as soon as a non-digit appears, and the accumulated value otherwise.
An empty digit list with no accumulated digit is not a number. -/
def parseDigits : List Char → Option Nat → Option Nat
  | [], acc => acc
  | c :: cs, acc =>
    if 48 ≤ c.toNat ∧ c.toNat ≤ 57 then
      parseDigits cs (some ((acc.getD 0) * 10 + (c.toNat - 48)))
    else none

/-- Integer literal parse: an optional sign followed by at least one decimal
digit.  Anything else is not parsable as an integer. -/
def parseInt (s : String) : Option Int :=
  match s.data with
  | [] => none
  | c :: cs =>
    if c = Char.ofNat 45 then (parseDigits cs none).map (fun n => -(n : Int))
    else if c = Char.ofNat 43 then (parseDigits cs none).map (fun n => (n : Int))
    else (parseDigits (c :: cs) none).map (fun n => (n : Int))

/-- Modelled from the spec: `to_int` is imported from the external
`textual_serve.server` module, whose body is not part of the sources of this
repository.  The spec describes the behaviour as: parse the query value as an
integer; on malformed values substitute the default (the missing-parameter
case is handled by the caller, which supplies the default string before
calling `to_int`). -/
def to_int (value : String) (default : Int) : Int :=
  (parseInt value).getD default

/-- Outcome of one awaited collaborator call inside `handle_websocket`:
it completes, raises `asyncio.CancelledError`, or raises an `Exception`. -/
inductive Outcome
  | ok
  | cancel
  | err
deriving DecidableEq

/-- The environment of one execution of `handle_websocket`: the outcome of
the WebSocket accept, of the `AppService(...)` construction, of
`AppService.start`, and of the relay loop `_process_messages`. -/
structure Env where
  accept : Outcome
  construct : Outcome
  startSvc : Outcome
  relay : Outcome
deriving DecidableEq

/-- Observable calls performed by `handle_websocket`, in order. -/
inductive Event
  | acceptCall
  | constructCall
  | startCall (width height : Int)
  | relayCall
  | closeCall
  | logErrorCall
  | stopCall
deriving DecidableEq

/-- How `handle_websocket` terminates: a normal return, re-raising
`asyncio.CancelledError`, or letting an `Exception` escape. -/
inductive ExecResult
  | returned
  | raisedCancel
  | raisedError
deriving DecidableEq

/-- Outcome of the `try` block body of `handle_websocket`. -/
inductive TryOut
  | finished
  | cancelled
  | errored
deriving DecidableEq

/-- Negotiated width: `to_int(websocket.query_params.get("width", "80"), 80)`. -/
def negotiated_width (qp : String → Option String) : Int :=
  to_int ((qp ("width")).getD ("80")) 80

/-- Negotiated height: `to_int(websocket.query_params.get("height", "24"), 24)`. -/
def negotiated_height (qp : String → Option String) : Int :=
  to_int ((qp ("height")).getD ("24")) 24

/-- The `try` block body of `handle_websocket`: construct the `AppService`,
start it, then run the relay loop; the first raising call aborts the rest.
Returns the block outcome, the calls it performed, and whether the
`app_service` local was assigned (the constructor returned). -/
def tryBody (env : Env) (width height : Int) : TryOut × List Event × Bool :=
  match env.construct with
  | .cancel => (.cancelled, [Event.constructCall], false)
  | .err => (.errored, [Event.constructCall], false)
  | .ok =>
    match env.startSvc with
    | .cancel => (.cancelled, [Event.constructCall, Event.startCall width height], true)
    | .err => (.errored, [Event.constructCall, Event.startCall width height], true)
    | .ok =>
      match env.relay with
      | .cancel =>
        (.cancelled, [Event.constructCall, Event.startCall width height, Event.relayCall], true)
      | .err =>
        (.errored, [Event.constructCall, Event.startCall width height, Event.relayCall], true)
      | .ok =>
        (.finished, [Event.constructCall, Event.startCall width height, Event.relayCall], true)

/-- Model of `Server.handle_websocket`: accept, parse `width`/`height`, then the
`try`/`except CancelledError`/`except Exception`/`finally` block.  The
cancellation handler closes the WebSocket and re-raises; the exception
handler logs and swallows; the `finally` block stops the service exactly
when the `app_service` local is not `None`. -/
def handle_websocket (env : Env) (qp : String → Option String) : ExecResult × List Event :=
  match env.accept with
  | .cancel => (.raisedCancel, [Event.acceptCall])
  | .err => (.raisedError, [Event.acceptCall])
  | .ok =>
    let width := negotiated_width qp
    let height := negotiated_height qp
    let t := tryBody env width height
    let handled : ExecResult × List Event :=
      match t.1 with
      | .finished => (.returned, t.2.1)
      | .cancelled => (.raisedCancel, t.2.1 ++ [Event.closeCall])
      | .errored => (.returned, t.2.1 ++ [Event.logErrorCall])
    let events := if t.2.2 then handled.2 ++ [Event.stopCall] else handled.2
    (handled.1, Event.acceptCall :: events)

/-- Whether an `AppService` instance was constructed during the run: the
accept succeeded and the constructor returned. -/
def serviceConstructed (env : Env) : Bool :=
  match env.accept, env.construct with
  | .ok, .ok => true
  | _, _ => false

/-- Number of `AppService.stop` calls in a trace. -/
def countStop : List Event → Nat
  | [] => 0
  | .stopCall :: es => countStop es + 1
  | _ :: es => countStop es

/-- Metadata record `DownloadMetadata` as consumed by `handle_download`: file name, MIME
type, optional text encoding (`str | None` in the source, so an empty
string is a possible present value), and the open-method hint. -/
structure DownloadMetadata where
  file_name : String
  mime_type : String
  encoding : Option String
  open_method : String
deriving DecidableEq

/-- The download manager collaborator: `get_download_metadata` (raising
`KeyError` on unknown keys, modelled as `none`) and `download`, the chunk
stream for a key, modelled as the finite list of byte chunks it yields. -/
structure DownloadManager where
  metadata : String → Option DownloadMetadata
  download : String → List (List Nat)

/-- The response value `handle_download` builds: either a plain
`Response(body, status_code)` (no explicit media type is passed), or a
`StreamingResponse(chunks, media_type, headers={Content-Disposition})`. -/
inductive DownloadResponse
  | plain (body : String) (status : Nat)
  | streaming (chunks : List (List Nat)) (media_type : String) (content_disposition : String)
deriving DecidableEq

/-- Lower-case hexadecimal digit. -/
def hexDigitChar (n : Nat) : Char :=
  if n < 10 then Char.ofNat (48 + n) else Char.ofNat (87 + n)

/-- CPython `repr` of one character of a string formatted with quote
character `quote`: backslash and the quote are backslash-escaped, tab,
newline and carriage return use their two-character escapes, other
non-printable ASCII characters use `\xNN`.  (Characters above ASCII are
kept verbatim here; the repository only ever reprs URL path keys.) -/
def pyReprChar (quote : Char) (c : Char) : List Char :=
  if c = Char.ofNat 92 then [Char.ofNat 92, Char.ofNat 92]
  else if c = quote then [Char.ofNat 92, quote]
  else if c = Char.ofNat 9 then [Char.ofNat 92, 't']
  else if c = Char.ofNat 10 then [Char.ofNat 92, 'n']
  else if c = Char.ofNat 13 then [Char.ofNat 92, 'r']
  else if c.toNat < 32 ∨ c.toNat = 127 then
    [Char.ofNat 92, 'x', hexDigitChar (c.toNat / 16), hexDigitChar (c.toNat % 16)]
  else [c]

/-- CPython `repr` of a string, as produced by the `{key!r}` conversion in
the 404 body: single-quoted, except double-quoted when the string contains
a single quote but no double quote. -/
def pyRepr (s : String) : String :=
  let quote : Char :=
    if s.data.contains (Char.ofNat 39) && !(s.data.contains (Char.ofNat 34)) then Char.ofNat 34
    else Char.ofNat 39
  String.mk (quote :: ((s.data.map (pyReprChar quote)).flatten ++ [quote]))

/-- A single-quote character as a string. -/
def squote : String := String.mk [Char.ofNat 39]

/-- Keys made only of printable ASCII characters other than the single
quote and the backslash: for these, the CPython repr is the key surrounded
by single quotes. -/
def plainKey (s : String) : Bool :=
  s.data.all (fun c => decide (31 < c.toNat ∧ c.toNat < 127 ∧ c ≠ Char.ofNat 39 ∧ c ≠ Char.ofNat 92))

/-- Model of `Server.handle_download`: look the key up; on `KeyError` answer the
404 `Response`; otherwise build the content type (charset suffix only when
the encoding field is truthy, i.e. present and non-empty), the disposition
from the open-method hint, and stream the manager chunks. -/
def handle_download (dm : DownloadManager) (key : String) : DownloadResponse :=
  match dm.metadata key with
  | none => .plain (("Download with key ") ++ (pyRepr key ++ (" not found"))) 404
  | some meta =>
    let mime_type := meta.mime_type
    let content_type :=
      match meta.encoding with
      | none => mime_type
      | some enc => if enc = ("") then mime_type else mime_type ++ (("; charset=") ++ enc)
    let disposition := if meta.open_method = ("browser") then ("inline") else ("attachment")
    let content_disposition := disposition ++ (("; filename=") ++ meta.file_name)
    .streaming (dm.download key) content_type content_disposition

/-- Media type of a built response (`none` for the plain 404 `Response`,
which is constructed without an explicit media type). -/
def responseMediaType : DownloadResponse → Option String
  | .plain _ _ => none
  | .streaming _ mt _ => some mt

/-- Content-Disposition header of a built response. -/
def responseDisposition : DownloadResponse → Option String
  | .plain _ _ => none
  | .streaming _ _ cd => some cd

/-- Body chunks of a built streaming response. -/
def responseChunks : DownloadResponse → Option (List (List Nat))
  | .plain _ _ => none
  | .streaming chunks _ _ => some chunks

/-- Split a character list at the first occurrence of `sep`, keeping the
remainder whole — the Python `s.split(sep, 1)` when the separator occurs;
`none` when it does not (there the Python two-name unpacking raises). -/
def listSplitOnFirst (sep : List Char) : List Char → Option (List Char × List Char)
  | [] => none
  | c :: cs =>
    if sep.isPrefixOf (c :: cs) then some ([], (c :: cs).drop sep.length)
    else
      match listSplitOnFirst sep cs with
      | some p => some (c :: p.1, p.2)
      | none => none

/-- Python `s.startswith(p)`. -/
def strStartsWith (s p : String) : Bool :=
  p.data.isPrefixOf s.data

/-- Model of `Server._get_ws_url`: append `/ws`, split once on `://`, and rebuild
with the `wss` scheme when the base URL starts with `https`, `ws`
otherwise.  `none` models the `ValueError` Python raises when the base URL
has no scheme separator. -/
def get_ws_url (base_url : String) : Option String :=
  match listSplitOnFirst (("://").data) ((base_url ++ ("/ws")).data) with
  | none => none
  | some p =>
    if strStartsWith base_url ("https") then some (("wss://") ++ String.mk p.2)
    else some (("ws://") ++ String.mk p.2)

/-- Environment in which every collaborator call completes normally. -/
def envAllOk : Env := ⟨.ok, .ok, .ok, .ok⟩

/-- Environment in which the relay loop is cancelled. -/
def envRelayCancel : Env := ⟨.ok, .ok, .ok, .cancel⟩

/-- Environment in which the relay loop raises an `Exception`. -/
def envRelayErr : Env := ⟨.ok, .ok, .ok, .err⟩

/-- Query parameters with no entries. -/
def qpEmpty : String → Option String := fun _ => none

/-- Query parameters carrying a negative `width`. -/
def qpNegWidth : String → Option String :=
  fun k => if k = ("width") then some ("-5") else none

/-- Query parameters carrying an unparsable `width` and no `height`. -/
def qpUnparsable : String → Option String :=
  fun k => if k = ("width") then some ("abc") else none

/-- A download manager that knows no key. -/
def dmNone : DownloadManager := ⟨fun _ => none, fun _ => []⟩

/-- A key with a single quote between the letters a and b. -/
def keyQuote : String := String.mk ['a', Char.ofNat 39, 'b']

/-- Metadata with a present, non-empty encoding and the browser hint. -/
def metaBrowser : DownloadMetadata :=
  ⟨("report.txt"), ("text/plain"), some ("utf-8"), ("browser")⟩

/-- Metadata with a present but empty encoding and a non-browser hint. -/
def metaEmptyEnc : DownloadMetadata :=
  ⟨("report.pdf"), ("application/pdf"), some (""), ("download")⟩

/-- A download manager with one browser-hinted key `k1`. -/
def dmOne : DownloadManager :=
  ⟨fun k => if k = ("k1") then some metaBrowser else none,
   fun k => if k = ("k1") then [[1, 2], [3]] else []⟩

/-- A download manager with one empty-encoding key `k2`. -/
def dmTwo : DownloadManager :=
  ⟨fun k => if k = ("k2") then some metaEmptyEnc else none,
   fun k => if k = ("k2") then [[7], [], [8, 9]] else []⟩

/-- A printable ASCII character other than the single quote and the
backslash reprs to itself under a single-quote quoting character. -/
theorem pyReprChar_plain (c : Char)
    (h : 31 < c.toNat ∧ c.toNat < 127 ∧ c ≠ Char.ofNat 39 ∧ c ≠ Char.ofNat 92) :
    pyReprChar (Char.ofNat 39) c = [c] := by
  obtain ⟨h1, h2, h3, h4⟩ := h
  have h9 : ¬c = Char.ofNat 9 := fun he => by rw [he] at h1; exact absurd h1 (by decide)
  have h10 : ¬c = Char.ofNat 10 := fun he => by rw [he] at h1; exact absurd h1 (by decide)
  have h13 : ¬c = Char.ofNat 13 := fun he => by rw [he] at h1; exact absurd h1 (by decide)
  have hx : ¬(c.toNat < 32 ∨ c.toNat = 127) := by omega
  unfold pyReprChar
  rw [if_neg h4, if_neg h3, if_neg h9, if_neg h10, if_neg h13, if_neg hx]

/-- A list of printable quote-free backslash-free ASCII characters reprs
to itself character by character. -/
theorem flatten_map_pyReprChar (l : List Char)
    (h : ∀ c ∈ l, 31 < c.toNat ∧ c.toNat < 127 ∧ c ≠ Char.ofNat 39 ∧ c ≠ Char.ofNat 92) :
    (l.map (pyReprChar (Char.ofNat 39))).flatten = l := by
  induction l with
  | nil => rfl
  | cons c cs ih =>
    rw [List.map_cons, List.flatten_cons, pyReprChar_plain c (h c (List.mem_cons_self c cs)),
      ih (fun x hx => h x (List.mem_cons_of_mem c hx))]
    rfl

/-- String concatenation is associative (via the underlying data). -/
theorem str_append_assoc (a b c : String) : (a ++ b) ++ c = a ++ (b ++ c) :=
  congrArg String.mk (List.append_assoc a.data b.data c.data)

/-- Splitting at the first occurrence of `://` when the part before the
separator contains no colon yields exactly that part and the remainder. -/
theorem listSplitOnFirst_sep (pre post : List Char) (h : Char.ofNat 58 ∉ pre) :
    listSplitOnFirst [Char.ofNat 58, Char.ofNat 47, Char.ofNat 47]
      (pre ++ Char.ofNat 58 :: Char.ofNat 47 :: Char.ofNat 47 :: post) = some (pre, post) := by
  induction pre with
  | nil =>
    simp [listSplitOnFirst, List.isPrefixOf]
  | cons c cs ih =>
    have hc : (Char.ofNat 58 == c) = false :=
      beq_eq_false_iff_ne.mpr (fun he => h (by rw [he]; exact List.mem_cons_self c cs))
    rw [List.cons_append]
    simp only [listSplitOnFirst, List.isPrefixOf, hc, Bool.false_and, Bool.false_eq_true,
      if_false]
    rw [ih (fun hm => h (List.mem_cons_of_mem c hm))]

/-- C1: on every exit path of `handle_websocket` — normal close,
cancellation, or swallowed internal error — the `AppService.stop` call
count in the trace is exactly 1 when an `AppService` instance was
constructed and 0 when construction never happened, never more. -/
theorem C1_service_stopped_exactly_once (env : Env) (qp : String → Option String) :
    countStop (handle_websocket env qp).2 = if serviceConstructed env then 1 else 0 := by
  obtain ⟨a, c, s, r⟩ := env
  cases a <;> cases c <;> cases s <;> cases r <;> rfl

/-- C2: whenever `asyncio.CancelledError` is raised during service
construction, service start, or the relay loop, `handle_websocket` closes
the WebSocket, re-raises the cancellation to its caller (never swallows
it), and still stops the service before the exception leaves whenever an
instance was constructed. -/
theorem C2_cancellation_closes_and_reraises (env : Env) (qp : String → Option String)
    (ha : env.accept = .ok)
    (hc : env.construct = .cancel ∨ (env.construct = .ok ∧ env.startSvc = .cancel) ∨
      (env.construct = .ok ∧ env.startSvc = .ok ∧ env.relay = .cancel)) :
    (handle_websocket env qp).1 = .raisedCancel ∧
      Event.closeCall ∈ (handle_websocket env qp).2 ∧
      (serviceConstructed env = true → Event.stopCall ∈ (handle_websocket env qp).2) := by
  obtain ⟨a, c, s, r⟩ := env
  cases a <;> cases c <;> cases s <;> cases r <;>
    simp_all [handle_websocket, tryBody, serviceConstructed]

/-- C2 witness: cancellation during the relay loop of a session whose
service started normally. -/
theorem C2_cancellation_witness :
    (handle_websocket envRelayCancel qpEmpty).1 = .raisedCancel ∧
      Event.closeCall ∈ (handle_websocket envRelayCancel qpEmpty).2 ∧
      Event.stopCall ∈ (handle_websocket envRelayCancel qpEmpty).2 := by
  have h := C2_cancellation_closes_and_reraises envRelayCancel qpEmpty rfl
    (Or.inr (Or.inr ⟨rfl, rfl, rfl⟩))
  exact ⟨h.1, h.2.1, h.2.2 rfl⟩

/-- C3: every non-cancellation exception raised during service
construction, service start, or the relay loop is caught at the session
boundary and `handle_websocket` returns normally. -/
theorem C3_errors_swallowed (env : Env) (qp : String → Option String)
    (ha : env.accept = .ok)
    (hc : env.construct = .err ∨ (env.construct = .ok ∧ env.startSvc = .err) ∨
      (env.construct = .ok ∧ env.startSvc = .ok ∧ env.relay = .err)) :
    (handle_websocket env qp).1 = .returned := by
  obtain ⟨a, c, s, r⟩ := env
  cases a <;> cases c <;> cases s <;> cases r <;> simp_all [handle_websocket, tryBody]

/-- C3 witness: an `Exception` raised by the relay loop is swallowed. -/
theorem C3_errors_swallowed_witness :
    (handle_websocket envRelayErr qpEmpty).1 = .returned :=
  C3_errors_swallowed envRelayErr qpEmpty rfl (Or.inr (Or.inr ⟨rfl, rfl, rfl⟩))

/-- C4 counterexample: the claim says the negotiated width and height are
always positive, but the query value `-5` is parsed and passed to
`AppService.start` unchanged, and `-5` is not positive. -/
theorem C4_counterexample_nonpositive_width :
    Event.startCall (-5) 24 ∈ (handle_websocket envAllOk qpNegWidth).2 ∧
      negotiated_width qpNegWidth = -5 ∧ ¬(0 < negotiated_width qpNegWidth) := by
  decide

/-- C4 amended: the negotiated width and height are integers (not
necessarily positive: a parsable negative or zero query value is passed
through), passed to `AppService.start`, and equal to exactly 80 and 24
respectively whenever the `width`/`height` parameters are absent or not
parsable as integers; parsing never fails, so no parse error reaches the
client. -/
theorem C4_amended_negotiated_size (qp : String → Option String) (env : Env)
    (ha : env.accept = .ok) (hc : env.construct = .ok) :
    Event.startCall (negotiated_width qp) (negotiated_height qp) ∈ (handle_websocket env qp).2 ∧
      (qp ("width") = none → negotiated_width qp = 80) ∧
      (∀ s, qp ("width") = some s → parseInt s = none → negotiated_width qp = 80) ∧
      (qp ("height") = none → negotiated_height qp = 24) ∧
      (∀ s, qp ("height") = some s → parseInt s = none → negotiated_height qp = 24) := by
  refine ⟨?_, ?_, ?_, ?_, ?_⟩
  · obtain ⟨a, c, s, r⟩ := env
    cases a <;> cases c <;> cases s <;> cases r <;>
      simp_all [handle_websocket, tryBody]
  · intro h
    unfold negotiated_width
    rw [h]
    decide
  · intro s hs hp
    unfold negotiated_width
    rw [hs]
    unfold to_int
    rw [Option.getD_some, hp]
    rfl
  · intro h
    unfold negotiated_height
    rw [h]
    decide
  · intro s hs hp
    unfold negotiated_height
    rw [hs]
    unfold to_int
    rw [Option.getD_some, hp]
    rfl

/-- C4 amended witness: an unparsable `width` and a missing `height` both
fall back to the defaults. -/
theorem C4_amended_witness :
    negotiated_width qpUnparsable = 80 ∧ negotiated_height qpUnparsable = 24 :=
  ⟨(C4_amended_negotiated_size qpUnparsable envAllOk rfl rfl).2.2.1 ("abc") rfl (by decide),
   (C4_amended_negotiated_size qpUnparsable envAllOk rfl rfl).2.2.2.1 rfl⟩

/-- C5 counterexample: for an unknown key containing a single quote, the
CPython repr conversion in the body switches to double quotes, so the
actual 404 body differs from the claimed body in which the key is always
surrounded by single quotes. -/
theorem C5_counterexample_quoted_key :
    handle_download dmNone keyQuote ≠
      DownloadResponse.plain
        (("Download with key ") ++ ((squote ++ (keyQuote ++ squote)) ++ (" not found"))) 404 := by
  decide

/-- C5 amended: for every key whose metadata lookup fails, the handler
returns the plain response with status 404 (constructed without an
explicit content type) and body `Download with key <r> not found` where
`<r>` is the CPython repr of the key — equal to the key surrounded by single
quotes whenever the key consists of printable ASCII characters other than
the single quote and the backslash — and no streaming response is built,
so the chunk stream for the key is never invoked. -/
theorem C5_amended_not_found_body (dm : DownloadManager) (key : String)
    (h : dm.metadata key = none) :
    handle_download dm key =
      .plain (("Download with key ") ++ (pyRepr key ++ (" not found"))) 404 ∧
      (plainKey key = true → pyRepr key = squote ++ (key ++ squote)) := by
  constructor
  · unfold handle_download
    rw [h]
  · intro hp
    have hall : ∀ c ∈ key.data,
        31 < c.toNat ∧ c.toNat < 127 ∧ c ≠ Char.ofNat 39 ∧ c ≠ Char.ofNat 92 := by
      intro c hc
      exact of_decide_eq_true ((List.all_eq_true.mp hp) c hc)
    have hq : key.data.contains (Char.ofNat 39) = false := by
      have : Char.ofNat 39 ∉ key.data := fun hm => (hall _ hm).2.2.1 rfl
      simp [List.contains, List.elem_iff, this]
    unfold pyRepr
    rw [hq]
    simp only [Bool.false_and, Bool.false_eq_true, if_false]
    rw [flatten_map_pyReprChar key.data hall]
    rfl

/-- C5 amended witness: an all-plain unknown key gives the single-quoted
404 body. -/
theorem C5_amended_witness :
    handle_download dmNone ("abc") =
      .plain (("Download with key ") ++ (pyRepr ("abc") ++ (" not found"))) 404 ∧
      pyRepr ("abc") = squote ++ (("abc") ++ squote) := by
  have h := C5_amended_not_found_body dmNone ("abc") rfl
  exact ⟨h.1, h.2 (by decide)⟩

/-- C6 counterexample: metadata whose encoding is the present-but-empty
string gets the bare MIME type, not the claimed `; charset=` suffix for a
present encoding. -/
theorem C6_counterexample_empty_encoding :
    dmTwo.metadata ("k2") = some metaEmptyEnc ∧ metaEmptyEnc.encoding = some ("") ∧
      responseMediaType (handle_download dmTwo ("k2")) = some metaEmptyEnc.mime_type ∧
      responseMediaType (handle_download dmTwo ("k2")) ≠
        some (metaEmptyEnc.mime_type ++ (("; charset=") ++ (""))) := by
  decide

/-- C6 amended: the response media type is the MIME type with the
`; charset=<encoding>` suffix appended exactly when an encoding is present
and non-empty, and the bare MIME type when the encoding is absent or the
empty string. -/
theorem C6_amended_charset_suffix (dm : DownloadManager) (key : String)
    (meta : DownloadMetadata) (h : dm.metadata key = some meta) :
    (meta.encoding = none → responseMediaType (handle_download dm key) = some meta.mime_type) ∧
      (meta.encoding = some ("") →
        responseMediaType (handle_download dm key) = some meta.mime_type) ∧
      (∀ e, meta.encoding = some e → e ≠ ("") →
        responseMediaType (handle_download dm key) =
          some (meta.mime_type ++ (("; charset=") ++ e))) := by
  refine ⟨?_, ?_, ?_⟩
  · intro he
    simp [handle_download, h, he, responseMediaType]
  · intro he
    simp [handle_download, h, he, responseMediaType]
  · intro e he hne
    simp [handle_download, h, he, hne, responseMediaType]

/-- C6 amended witness: a present non-empty `utf-8` encoding yields the
charset suffix. -/
theorem C6_amended_witness :
    responseMediaType (handle_download dmOne ("k1")) =
      some (("text/plain") ++ (("; charset=") ++ ("utf-8"))) :=
  (C6_amended_charset_suffix dmOne ("k1") metaBrowser rfl).2.2 ("utf-8") rfl (by decide)

/-- C7: the Content-Disposition header is `inline; filename=<name>`
exactly when the open-method hint is `browser` and
`attachment; filename=<name>` for every other hint, with the file name
concatenated verbatim and unescaped. -/
theorem C7_content_disposition (dm : DownloadManager) (key : String)
    (meta : DownloadMetadata) (h : dm.metadata key = some meta) :
    (meta.open_method = ("browser") →
      responseDisposition (handle_download dm key) =
        some (("inline; filename=") ++ meta.file_name)) ∧
      (meta.open_method ≠ ("browser") →
        responseDisposition (handle_download dm key) =
          some (("attachment; filename=") ++ meta.file_name)) := by
  constructor
  · intro hb
    have hstep : responseDisposition (handle_download dm key) =
        some (("inline") ++ (("; filename=") ++ meta.file_name)) := by
      simp [handle_download, h, hb, responseDisposition]
    rw [hstep, ← str_append_assoc,
      show ("inline") ++ ("; filename=") = ("inline; filename=") from by decide]
  · intro hb
    have hstep : responseDisposition (handle_download dm key) =
        some (("attachment") ++ (("; filename=") ++ meta.file_name)) := by
      simp [handle_download, h, hb, responseDisposition]
    rw [hstep, ← str_append_assoc,
      show ("attachment") ++ ("; filename=") = ("attachment; filename=") from by decide]

/-- C7 witness: the browser hint of `k1` gives the inline disposition with
its file name. -/
theorem C7_content_disposition_witness :
    responseDisposition (handle_download dmOne ("k1")) =
      some (("inline; filename=") ++ ("report.txt")) :=
  (C7_content_disposition dmOne ("k1") metaBrowser rfl).1 rfl

/-- C9: for a known key the streaming response carries exactly the
chunk list of the download manager for that key — no chunk dropped, duplicated
or reordered — and consuming it incrementally (any split into a consumed
prefix and a remaining suffix) concatenates to the same total body. -/
theorem C9_stream_chunks (dm : DownloadManager) (key : String)
    (meta : DownloadMetadata) (h : dm.metadata key = some meta) :
    responseChunks (handle_download dm key) = some (dm.download key) ∧
      (∀ n, ((dm.download key).take n).flatten ++ ((dm.download key).drop n).flatten =
        (dm.download key).flatten) := by
  refine ⟨by simp [handle_download, h, responseChunks], ?_⟩
  intro n
  rw [← List.flatten_append, List.take_append_drop]

/-- C9 witness: the two chunks of `k1` are streamed unchanged. -/
theorem C9_stream_chunks_witness :
    responseChunks (handle_download dmOne ("k1")) = some [[1, 2], [3]] :=
  ((C9_stream_chunks dmOne ("k1") metaBrowser rfl).1).trans (by decide)

/-- C10: a present-but-empty encoding field is treated the same as an
absent one — the media type is the bare MIME type with no charset
suffix. -/
theorem C10_empty_encoding_bare_mime (dm : DownloadManager) (key : String)
    (meta : DownloadMetadata) (h : dm.metadata key = some meta)
    (he : meta.encoding = some ("")) :
    responseMediaType (handle_download dm key) = some meta.mime_type := by
  simp [handle_download, h, he, responseMediaType]

/-- C10 witness: the empty-encoding metadata of `k2` yields the bare
`application/pdf`. -/
theorem C10_empty_encoding_witness :
    responseMediaType (handle_download dmTwo ("k2")) = some ("application/pdf") :=
  C10_empty_encoding_bare_mime dmTwo ("k2") metaEmptyEnc rfl rfl

/-- C8: for every base URL with a scheme separator (a colon-free scheme
followed by `://` and the remainder), the derived WebSocket URL uses the
`wss` scheme when the base URL starts with `https` and `ws` for any other
scheme, and everything after the scheme separator — the host/path
remainder with the appended `/ws` suffix — is preserved verbatim. -/
theorem C8_ws_url_scheme (scheme rest : String) (h : Char.ofNat 58 ∉ scheme.data) :
    get_ws_url ((scheme ++ ("://")) ++ rest) =
      some ((if strStartsWith ((scheme ++ ("://")) ++ rest) ("https") then ("wss://")
        else ("ws://")) ++ (rest ++ ("/ws"))) := by
  have hsep : ("://").data = [Char.ofNat 58, Char.ofNat 47, Char.ofNat 47] := by decide
  have hdata : (((scheme ++ ("://")) ++ rest) ++ ("/ws")).data =
      scheme.data ++
        Char.ofNat 58 :: Char.ofNat 47 :: Char.ofNat 47 :: (rest.data ++ ("/ws").data) := by
    have h1 : (((scheme ++ ("://")) ++ rest) ++ ("/ws")).data =
        ((scheme.data ++ ("://").data) ++ rest.data) ++ ("/ws").data := rfl
    rw [h1, hsep]
    simp [List.append_assoc]
  unfold get_ws_url
  rw [hsep, hdata, listSplitOnFirst_sep scheme.data (rest.data ++ ("/ws").data) h]
  by_cases hs : strStartsWith ((scheme ++ ("://")) ++ rest) ("https") = true
  · simp only [hs, if_true]
    rfl
  · simp only [hs, if_false]
    rfl

/-- C8 witness: an `https` base URL maps to the `wss` URL with host and
path preserved and `/ws` appended. -/
theorem C8_ws_url_witness :
    get_ws_url (("https") ++ ("://") ++ ("example.com")) = some ("wss://example.com/ws") :=
  (C8_ws_url_scheme ("https") ("example.com") (by decide)).trans (by decide)

end TextualServeAsgi
